import Mathlib

/-!
Verification of the Audio Themes NVDA add-on audio engine
(src/addon/globalPlugins/audiothemes/audio_engine).

The development shallowly embeds the Python source:

* machine floats are modelled as rationals; every numeric fact proved here
  involves only values and operations that are exact in binary floating
  point (halving, division by 100 of multiples of 25, the fixed constants
  180, 50, -40, 0.25, 0.1), so the rational model agrees with the float
  semantics of the source on all inputs used;
* fallible Python code (a division that can raise ZeroDivisionError) is
  embedded in the Except monad;
* the native Steam Audio DLL is modelled by an explicit record of the
  outcome of one native call (success flag, nullness and contents of the
  returned buffer, whether the sample-packing step raises), and the
  wrapper records how many times free_output_sound was invoked;
* the racy reads of the generation counter performed by a background
  worker are modelled as explicit parameters (the value the counter had
  at each read point), and thread interleaving of the queued-playback
  workers is modelled by a small-step scheduler over per-worker programs.
-/

namespace AudioThemes

/-- Embeds clamp from audio_engine/__init__.py:
max(min(value, max_value), min_value). -/
def clamp (value min_value max_value : ℚ) : ℚ :=
  max (min value max_value) min_value

/-- Stereo 16-bit audio payload (the bytes fed to the wave player),
abstracted as its list of int16 samples. -/
abbrev Audio := List ℤ

/-- Python truthiness of an optional bytes value: None and the empty
bytes object are falsy. -/
def truthy : Option Audio → Bool
  | none => false
  | some a => !a.isEmpty

/-- The error a division by zero raises in the Python source. -/
inductive PyErr where
  | zeroDivision
  deriving DecidableEq

/-- Display width constant, set to 180.0 degrees in SteamAudioPlayer init. -/
def display_width : ℚ := 180

/-- Display height minimum constant, set to -40.0 degrees in init. -/
def display_height_min : ℚ := -40

/-- Display height magnitude constant, set to 50.0 degrees in init. -/
def display_height_magnitude : ℚ := 50

/-- An NVDA object as the engine sees it: an identity (Python object
identity, used by the debounce check) and an optional bounding box
(x, y, width, height). -/
structure UIObject where
  id : ℕ
  location : Option (ℚ × ℚ × ℚ × ℚ)
  deriving DecidableEq

/-- The dict returned by make_sound_object: normalized float mono
samples plus the sample rate of the decoded file. -/
structure Sound where
  data : List ℚ
  sample_rate : ℕ
  deriving DecidableEq

/-- The dict returned by extract_sound_params. -/
structure SoundParams where
  sound_data : List ℚ
  angle_x : ℚ
  angle_y : ℚ
  volume : ℚ
  deriving DecidableEq

/-- The object center computed by extract_sound_params: the middle of
the bounding box when 3D audio is on and the object has a location,
otherwise the center of the desktop. -/
def sound_center (audio3d : Bool) (desktop_max_x desktop_max_y : ℚ)
    (obj : Option UIObject) : ℚ × ℚ :=
  match audio3d, (match obj with | some o => o.location | none => none) with
  | true, some (x, y, w, h) => (x + w / 2, y + h / 2)
  | _, _ => (desktop_max_x / 2, desktop_max_y / 2)

/-- Embeds SteamAudioPlayer.extract_sound_params.  The desktop size comes
from the desktop-size cache (the fallback value is (1920, 1080)); the
divisions by the desktop dimensions raise ZeroDivisionError when the
dimension is zero, which the source does not catch. -/
def extract_sound_params (audio3d : Bool) (desktop_max_x desktop_max_y : ℚ)
    (obj : Option UIObject) (sound : Sound) (cached_volume : ℚ) :
    Except PyErr SoundParams :=
  if desktop_max_x = 0 then Except.error PyErr.zeroDivision
  else if desktop_max_y = 0 then Except.error PyErr.zeroDivision
  else Except.ok
    { sound_data := sound.data
      angle_x := clamp
        (((sound_center audio3d desktop_max_x desktop_max_y obj).1
            - desktop_max_x / 2) / desktop_max_x * display_width) (-90) 90
      angle_y := clamp
        (display_height_magnitude
            * ((desktop_max_y - (sound_center audio3d desktop_max_x desktop_max_y obj).2)
              / desktop_max_y)
          + display_height_min) (-90) 90
      volume := cached_volume }

/-- Embeds SteamAudioPlayer.compute_volume.  volume is the configured
volume percent; driver_volume is getattr(driver, "volume", 100), so none
models a synth driver without a volume attribute. -/
def compute_volume (use_synth_volume : Bool) (volume : ℚ) (audio3d : Bool)
    (driver_volume : Option ℚ) : ℚ :=
  if !use_synth_volume then clamp (volume / 100) 0 1
  else
    let v := clamp (driver_volume.getD 100 / 100) 0 1
    if audio3d then v + 1 / 4 else v

/-- The mutable playback state of a SteamAudioPlayer instance that the
entry points read and write. -/
structure EngineState where
  last_played_object : Option ℕ
  last_played_time : ℚ
  sound_generation : ℕ
  deriving DecidableEq

/-- The configuration and cached values an entry point reads but never
writes: the 3D flag, the cached desktop size and the cached volume. -/
structure PlaybackEnv where
  audio3d : Bool
  desktop_max_x : ℚ
  desktop_max_y : ℚ
  cached_volume : ℚ
  deriving DecidableEq

/-- Python object identity of the optional object argument, as compared
by the debounce check (obj is self.last_played_object). -/
def objId : Option UIObject → Option ℕ
  | none => none
  | some o => some o.id

/-- Embeds SteamAudioPlayer.play up to the thread dispatch: returns the
updated engine state and, when a background worker is spawned, the
extracted parameters together with the captured generation value. -/
def play (env : PlaybackEnv) (s : EngineState) (obj : Option UIObject)
    (sound : Option Sound) (curtime : ℚ) :
    Except PyErr (EngineState × Option (SoundParams × ℕ)) :=
  match sound with
  | none => Except.ok (s, none)
  | some snd =>
    if curtime - s.last_played_time < 1 / 10 ∧ objId obj = s.last_played_object then
      Except.ok (s, none)
    else
      match extract_sound_params env.audio3d env.desktop_max_x env.desktop_max_y
          obj snd env.cached_volume with
      | Except.error e => Except.error e
      | Except.ok params =>
        Except.ok (⟨objId obj, curtime, s.sound_generation + 1⟩,
          some (params, s.sound_generation + 1))

/-- Embeds SteamAudioPlayer.play_queued up to the thread dispatch: no
debounce bookkeeping, no generation increment, state is not touched. -/
def play_queued (env : PlaybackEnv) (s : EngineState) (obj : Option UIObject)
    (sound : Option Sound) :
    Except PyErr (EngineState × Option SoundParams) :=
  match sound with
  | none => Except.ok (s, none)
  | some snd =>
    match extract_sound_params env.audio3d env.desktop_max_x env.desktop_max_y
        obj snd env.cached_volume with
    | Except.error e => Except.error e
    | Except.ok params => Except.ok (s, some params)

/-- Embeds SteamAudioPlayer.play_file up to the thread dispatch.
decoded is the result of make_sound_object, whose body is entirely
wrapped in try/except and returns None on any failure. -/
def play_file (s : EngineState) (decoded : Option Sound) :
    Except PyErr (EngineState × Option (Sound × ℕ)) :=
  match decoded with
  | none => Except.ok (s, none)
  | some snd =>
    Except.ok ({ s with sound_generation := s.sound_generation + 1 },
      some (snd, s.sound_generation + 1))

/-- An observable action on the shared audio output sink. -/
inductive SinkEvent where
  | stop
  | feed (audio : Audio)
  deriving DecidableEq

/-- Checks whether a sink event is a feed. -/
def isFeed : SinkEvent → Bool
  | SinkEvent.feed _ => true
  | SinkEvent.stop => false

/-- Holds when a sink trace contains no feed call. -/
def noFeed (evs : List SinkEvent) : Bool :=
  evs.all fun e => !isFeed e

/-- The final audio chosen by the reverb block shared by the async and
queued workers: processed is the spatialized audio, conf_ok is false when
reading the configuration raises (the except-pass path), conf_use_reverb
is the configured use_reverb flag, reverb_result is what apply_reverb
returned (none when it failed or raised inside the try block). -/
def reverb_final (processed : Audio) (use_reverb conf_ok conf_use_reverb : Bool)
    (reverb_result : Option Audio) : Audio :=
  if use_reverb && conf_ok && conf_use_reverb && truthy reverb_result then
    reverb_result.getD []
  else processed

/-- Embeds the sink-facing behaviour of SteamAudioPlayer.play_sound_async
for a worker dispatched with captured generation value generation:
processed is the steam_audio.process_sound result for the volume-adjusted
samples, gen_check1 is the value of the generation counter at the first
(unlocked) check and gen_check2 its value at the re-check performed inside
the wave-player lock.  Returns the ordered sink calls the worker makes. -/
def play_sound_async_events (processed : Option Audio)
    (use_reverb conf_ok conf_use_reverb : Bool) (reverb_result : Option Audio)
    (generation gen_check1 gen_check2 : ℕ) : List SinkEvent :=
  if !truthy processed then []
  else if generation ≠ gen_check1 then []
  else
    SinkEvent.stop ::
      (if generation ≠ gen_check2 then []
       else [SinkEvent.feed (reverb_final (processed.getD []) use_reverb conf_ok
         conf_use_reverb reverb_result)])

/-- Embeds the sink-facing behaviour of the worker spawned by play_file:
processing happens with fixed angles (0, 0), and the feed is guarded by a
check before stop() and a re-check inside the wave-player lock. -/
def play_file_async_events (processed : Option Audio)
    (my_generation gen_check1 gen_check2 : ℕ) : List SinkEvent :=
  if truthy processed && (my_generation == gen_check1) then
    SinkEvent.stop ::
      (if my_generation == gen_check2 then [SinkEvent.feed (processed.getD [])] else [])
  else []

/-- The final audio a queued worker will feed: none when process_sound
failed (the worker returns without touching the sink). -/
def play_sound_queued_final (processed : Option Audio)
    (use_reverb conf_ok conf_use_reverb : Bool) (reverb_result : Option Audio) :
    Option Audio :=
  if !truthy processed then none
  else some (reverb_final (processed.getD []) use_reverb conf_ok conf_use_reverb
    reverb_result)

/-- Embeds the sink-facing behaviour of SteamAudioPlayer.play_sound_queued:
no generation check and no stop; the only sink call is one feed under the
wave-player lock, skipped when processing failed. -/
def play_sound_queued_events (processed : Option Audio)
    (use_reverb conf_ok conf_use_reverb : Bool) (reverb_result : Option Audio) :
    List SinkEvent :=
  match play_sound_queued_final processed use_reverb conf_ok conf_use_reverb
      reverb_result with
  | none => []
  | some f => [SinkEvent.feed f]

/-- The outcome of one native process_sound or apply_reverb call of the
Steam Audio DLL, plus whether the subsequent Python sample-packing step
raises: success is the returned bool, buffer_null says whether the
returned output pointer is null, buffer holds the output samples the
native side wrote (so output_length.value is buffer.length). -/
structure NativeBufferResult where
  success : Bool
  buffer_null : Bool
  buffer : List ℤ
  pack_raises : Bool
  deriving DecidableEq

/-- What a SteamAudio wrapper call returns together with how many times
it invoked free_output_sound on the native output buffer. -/
structure WrapperOutcome where
  result : Option Audio
  free_calls : ℕ
  deriving DecidableEq

/-- Embeds SteamAudio.process_sound from steam_audio.py: on native
failure or a null output pointer it returns None without freeing; on a
positive output length it packs the samples and frees the buffer exactly
once (also on the exception path); on output length zero it returns the
empty bytes object without freeing. -/
def process_sound (initialized : Bool) (r : NativeBufferResult) : WrapperOutcome :=
  if !initialized then ⟨none, 0⟩
  else if !r.success || r.buffer_null then ⟨none, 0⟩
  else if 0 < r.buffer.length then
    if r.pack_raises then ⟨none, 1⟩ else ⟨some r.buffer, 1⟩
  else ⟨some [], 0⟩

/-- Embeds SteamAudio.apply_reverb from steam_audio.py; after parsing the
input bytes its output-buffer handling is identical to process_sound. -/
def apply_reverb (initialized : Bool) (r : NativeBufferResult) : WrapperOutcome :=
  if !initialized then ⟨none, 0⟩
  else if !r.success || r.buffer_null then ⟨none, 0⟩
  else if 0 < r.buffer.length then
    if r.pack_raises then ⟨none, 1⟩ else ⟨some r.buffer, 1⟩
  else ⟨some [], 0⟩

/-- The state of the SteamAudio facade relevant to initialization. -/
structure SteamState where
  initialized : Bool
  sample_rate : ℕ
  frame_size : ℕ
  deriving DecidableEq

/-- What SteamAudio.initialize returns: the bool result, the facade state
after the call, and whether the native initialize_steam_audio routine was
invoked. -/
structure InitOutcome where
  ret : Bool
  state : SteamState
  native_called : Bool
  deriving DecidableEq

/-- Embeds SteamAudio.initialize from steam_audio.py: if already
initialized it returns True immediately; otherwise it calls the native
routine (native_ok is its result) and records the parameters on success. -/
def initializeImpl (s : SteamState) (native_ok : Bool) (sample_rate frame_size : ℕ) :
    InitOutcome :=
  if s.initialized then ⟨true, s, false⟩
  else if native_ok then ⟨true, ⟨true, sample_rate, frame_size⟩, true⟩
  else ⟨false, s, true⟩

/-!  A small-step scheduler over the background workers spawned by
play_queued.  Each worker is a straight-line program of atomic actions;
a schedule is the order in which the OS lets the workers take steps.
The sink actions are atomic because every feed happens under the single
wave-player lock. -/

/-- One atomic action of a playback worker: CPU-only work (volume
scaling, the serialized native calls) or one sink call made under the
wave-player lock. -/
inductive WAction where
  | cpu
  | sinkStop
  | sinkFeed (audio : Audio)
  deriving DecidableEq

/-- The sink events one action emits. -/
def actionEvents : WAction → List SinkEvent
  | WAction.cpu => []
  | WAction.sinkStop => [SinkEvent.stop]
  | WAction.sinkFeed a => [SinkEvent.feed a]

/-- The worker program spawned by one play_queued call, indexed by the
final audio play_sound_queued_final produces: processing, then one feed
under the lock when processing succeeded. -/
def queuedProg (finalAudio : Option Audio) : List WAction :=
  match finalAudio with
  | none => [WAction.cpu]
  | some f => [WAction.cpu, WAction.sinkFeed f]

/-- One scheduler step: let worker i execute its next action (a no-op
when i is out of range or the worker already finished).  The state is the
per-worker program counters paired with the sink trace so far. -/
def stepW (progs : List (List WAction)) (st : List ℕ × List SinkEvent) (i : ℕ) :
    List ℕ × List SinkEvent :=
  match progs[i]?, st.1[i]? with
  | some prog, some pc =>
    match prog[pc]? with
    | some act => (st.1.set i (pc + 1), st.2 ++ actionEvents act)
    | none => st
  | _, _ => st

/-- Runs a schedule from the initial state (all workers at their first
action, empty sink trace). -/
def runSched (progs : List (List WAction)) (sched : List ℕ) :
    List ℕ × List SinkEvent :=
  sched.foldl (stepW progs) (List.replicate progs.length 0, [])

/-- The sink events the unexecuted suffixes of the worker programs will
still emit. -/
def remEvents (progs : List (List WAction)) (pcs : List ℕ) : List SinkEvent :=
  (progs.zip pcs).flatMap fun pr => (pr.1.drop pr.2).flatMap actionEvents

/-- One scheduler step that additionally tags every emitted sink event
with the index of the worker that performed it, so that the order in
which the workers reach the wave-player lock is visible in the trace. -/
def stepWT (progs : List (List WAction)) (st : List ℕ × List (ℕ × SinkEvent))
    (i : ℕ) : List ℕ × List (ℕ × SinkEvent) :=
  match progs[i]?, st.1[i]? with
  | some prog, some pc =>
    match prog[pc]? with
    | some act => (st.1.set i (pc + 1), st.2 ++ (actionEvents act).map fun e => (i, e))
    | none => st
  | _, _ => st

/-- Runs a schedule like runSched while recording which worker emitted
each sink event. -/
def runSchedT (progs : List (List WAction)) (sched : List ℕ) :
    List ℕ × List (ℕ × SinkEvent) :=
  sched.foldl (stepWT progs) (List.replicate progs.length 0, [])

/-- Whether an Except value is a success, i.e. whether the embedded
Python call returned instead of raising. -/
def exceptOk {ε α : Type _} : Except ε α → Bool
  | Except.ok _ => true
  | Except.error _ => false

lemma drop_flatMap_actionEvents (prog : List WAction) (pc : ℕ) (act : WAction)
    (hact : prog[pc]? = some act) :
    (prog.drop pc).flatMap actionEvents
      = actionEvents act ++ (prog.drop (pc + 1)).flatMap actionEvents := by
  have hlt : pc < prog.length := by
    by_contra hge
    rw [List.getElem?_eq_none (Nat.le_of_not_lt hge)] at hact
    exact Option.noConfusion hact
  have hEq : prog[pc] = act := by
    rw [List.getElem?_eq_getElem hlt] at hact
    exact Option.some.inj hact
  rw [List.drop_eq_getElem_cons hlt, List.flatMap_cons, hEq]

lemma remEvents_set (progs : List (List WAction)) (pcs : List ℕ) (i pc : ℕ)
    (prog : List WAction) (act : WAction)
    (hprog : progs[i]? = some prog) (hpc : pcs[i]? = some pc)
    (hact : prog[pc]? = some act) :
    (remEvents progs pcs : Multiset SinkEvent)
      = ↑(actionEvents act) + ↑(remEvents progs (pcs.set i (pc + 1))) := by
  induction progs generalizing pcs i with
  | nil => exact absurd hprog (by simp)
  | cons p ps ih =>
    cases pcs with
    | nil => exact absurd hpc (by simp)
    | cons q qs =>
      cases i with
      | zero =>
        have hp : p = prog := by simpa using hprog
        have hq : q = pc := by simpa using hpc
        subst hp; subst hq
        show ((remEvents (p :: ps) (q :: qs) : List SinkEvent) : Multiset SinkEvent) = _
        simp only [remEvents, List.zip_cons_cons, List.flatMap_cons, List.set_cons_zero]
        rw [drop_flatMap_actionEvents p q act hact]
        simp [← Multiset.coe_add, List.append_assoc]
      | succ j =>
        have hprog2 : ps[j]? = some prog := by simpa using hprog
        have hpc2 : qs[j]? = some pc := by simpa using hpc
        have ihj := ih qs j hprog2 hpc2
        simp only [remEvents, List.zip_cons_cons, List.flatMap_cons,
          List.set_cons_succ] at ihj ⊢
        rw [← Multiset.coe_add, ← Multiset.coe_add, ihj]
        abel

lemma foldl_stepW_invariant (progs : List (List WAction)) (sched : List ℕ) :
    ∀ (pcs : List ℕ) (tr : List SinkEvent),
    (((sched.foldl (stepW progs) (pcs, tr)).2 : List SinkEvent) : Multiset SinkEvent)
      + ↑(remEvents progs (sched.foldl (stepW progs) (pcs, tr)).1)
      = ↑tr + ↑(remEvents progs pcs) := by
  induction sched with
  | nil => intro pcs tr; rfl
  | cons i rest ih =>
    intro pcs tr
    rw [List.foldl_cons]
    rcases h1 : progs[i]? with _ | prog
    · have hst : stepW progs (pcs, tr) i = (pcs, tr) := by simp [stepW, h1]
      rw [hst]; exact ih pcs tr
    · rcases h2 : pcs[i]? with _ | pc
      · have hst : stepW progs (pcs, tr) i = (pcs, tr) := by simp [stepW, h1, h2]
        rw [hst]; exact ih pcs tr
      · rcases h3 : prog[pc]? with _ | act
        · have hst : stepW progs (pcs, tr) i = (pcs, tr) := by simp [stepW, h1, h2, h3]
          rw [hst]; exact ih pcs tr
        · have hst : stepW progs (pcs, tr) i
              = (pcs.set i (pc + 1), tr ++ actionEvents act) := by
            simp [stepW, h1, h2, h3]
          rw [hst, ih (pcs.set i (pc + 1)) (tr ++ actionEvents act),
            remEvents_set progs pcs i pc prog act h1 h2 h3, ← Multiset.coe_add]
          abel

lemma no_stop_in_queued_run (finals : List (Option Audio)) (sched : List ℕ) :
    ∀ (pcs : List ℕ) (tr : List SinkEvent), SinkEvent.stop ∉ tr →
      SinkEvent.stop ∉ (sched.foldl (stepW (finals.map queuedProg)) (pcs, tr)).2 := by
  induction sched with
  | nil => intro pcs tr h; exact h
  | cons i rest ih =>
    intro pcs tr h
    rw [List.foldl_cons]
    rcases h1 : (finals.map queuedProg)[i]? with _ | prog
    · have hst : stepW (finals.map queuedProg) (pcs, tr) i = (pcs, tr) := by
        simp [stepW, h1]
      rw [hst]; exact ih pcs tr h
    · rcases h2 : pcs[i]? with _ | pc
      · have hst : stepW (finals.map queuedProg) (pcs, tr) i = (pcs, tr) := by
          simp [stepW, h1, h2]
        rw [hst]; exact ih pcs tr h
      · rcases h3 : prog[pc]? with _ | act
        · have hst : stepW (finals.map queuedProg) (pcs, tr) i = (pcs, tr) := by
            simp [stepW, h1, h2, h3]
          rw [hst]; exact ih pcs tr h
        · have hst : stepW (finals.map queuedProg) (pcs, tr) i
              = (pcs.set i (pc + 1), tr ++ actionEvents act) := by
            simp [stepW, h1, h2, h3]
          rw [hst]
          refine ih _ _ ?_
          intro hmem
          rcases List.mem_append.mp hmem with hl | hr
          · exact h hl
          · rcases hf2 : finals[i]? with _ | f
            · rw [List.getElem?_map, hf2] at h1; exact Option.noConfusion h1
            · rw [List.getElem?_map, hf2] at h1
              have hpf : prog = queuedProg f := by
                simpa using h1.symm
              have hactmem : act ∈ prog := List.getElem?_mem h3
              rw [hpf] at hactmem
              rcases f with _ | fa
              · simp only [queuedProg, List.mem_singleton] at hactmem
                rw [hactmem] at hr
                simp [actionEvents] at hr
              · simp only [queuedProg, List.mem_cons, List.mem_singleton,
                  List.not_mem_nil, or_false] at hactmem
                rcases hactmem with ha | ha <;> rw [ha] at hr <;>
                  simp [actionEvents] at hr

lemma runSched_eq_tagged (progs : List (List WAction)) (sched : List ℕ) :
    ∀ (pcs : List ℕ) (ttr : List (ℕ × SinkEvent)),
    (sched.foldl (stepW progs) (pcs, ttr.map Prod.snd)).1
      = (sched.foldl (stepWT progs) (pcs, ttr)).1
    ∧ (sched.foldl (stepW progs) (pcs, ttr.map Prod.snd)).2
      = ((sched.foldl (stepWT progs) (pcs, ttr)).2).map Prod.snd := by
  induction sched with
  | nil => intro pcs ttr; exact ⟨rfl, rfl⟩
  | cons i rest ih =>
    intro pcs ttr
    rw [List.foldl_cons, List.foldl_cons]
    rcases h1 : progs[i]? with _ | prog
    · have e1 : stepW progs (pcs, ttr.map Prod.snd) i = (pcs, ttr.map Prod.snd) := by
        simp [stepW, h1]
      have e2 : stepWT progs (pcs, ttr) i = (pcs, ttr) := by
        simp [stepWT, h1]
      rw [e1, e2]; exact ih pcs ttr
    · rcases h2 : pcs[i]? with _ | pc
      · have e1 : stepW progs (pcs, ttr.map Prod.snd) i = (pcs, ttr.map Prod.snd) := by
          simp [stepW, h1, h2]
        have e2 : stepWT progs (pcs, ttr) i = (pcs, ttr) := by
          simp [stepWT, h1, h2]
        rw [e1, e2]; exact ih pcs ttr
      · rcases h3 : prog[pc]? with _ | act
        · have e1 : stepW progs (pcs, ttr.map Prod.snd) i = (pcs, ttr.map Prod.snd) := by
            simp [stepW, h1, h2, h3]
          have e2 : stepWT progs (pcs, ttr) i = (pcs, ttr) := by
            simp [stepWT, h1, h2, h3]
          rw [e1, e2]; exact ih pcs ttr
        · have e1 : stepW progs (pcs, ttr.map Prod.snd) i
              = (pcs.set i (pc + 1), ttr.map Prod.snd ++ actionEvents act) := by
            simp [stepW, h1, h2, h3]
          have e2 : stepWT progs (pcs, ttr) i
              = (pcs.set i (pc + 1), ttr ++ (actionEvents act).map fun e => (i, e)) := by
            simp [stepWT, h1, h2, h3]
          rw [e1, e2]
          have hmap : (ttr ++ (actionEvents act).map fun e => (i, e)).map Prod.snd
              = ttr.map Prod.snd ++ actionEvents act := by
            simp [List.map_map]
          rw [← hmap]
          exact ih _ _

lemma queued_tagged_feeds (finals : List (Option Audio)) (sched : List ℕ) :
    ∀ (pcs : List ℕ) (ttr : List (ℕ × SinkEvent)),
    (∀ q ∈ ttr, ∃ f, finals[q.1]? = some (some f) ∧ q.2 = SinkEvent.feed f) →
    ∀ q ∈ (sched.foldl (stepWT (finals.map queuedProg)) (pcs, ttr)).2,
      ∃ f, finals[q.1]? = some (some f) ∧ q.2 = SinkEvent.feed f := by
  induction sched with
  | nil => intro pcs ttr h; exact h
  | cons i rest ih =>
    intro pcs ttr h
    rw [List.foldl_cons]
    rcases h1 : (finals.map queuedProg)[i]? with _ | prog
    · have e : stepWT (finals.map queuedProg) (pcs, ttr) i = (pcs, ttr) := by
        simp [stepWT, h1]
      rw [e]; exact ih pcs ttr h
    · rcases h2 : pcs[i]? with _ | pc
      · have e : stepWT (finals.map queuedProg) (pcs, ttr) i = (pcs, ttr) := by
          simp [stepWT, h1, h2]
        rw [e]; exact ih pcs ttr h
      · rcases h3 : prog[pc]? with _ | act
        · have e : stepWT (finals.map queuedProg) (pcs, ttr) i = (pcs, ttr) := by
            simp [stepWT, h1, h2, h3]
          rw [e]; exact ih pcs ttr h
        · have e : stepWT (finals.map queuedProg) (pcs, ttr) i
              = (pcs.set i (pc + 1), ttr ++ (actionEvents act).map fun ev => (i, ev)) := by
            simp [stepWT, h1, h2, h3]
          rw [e]
          refine ih _ _ ?_
          intro q hq
          rcases List.mem_append.mp hq with hl | hr
          · exact h q hl
          · rcases hf2 : finals[i]? with _ | f
            · rw [List.getElem?_map, hf2] at h1; exact Option.noConfusion h1
            · rw [List.getElem?_map, hf2] at h1
              have hpf : prog = queuedProg f := by
                simpa using h1.symm
              have hactmem : act ∈ prog := List.getElem?_mem h3
              rw [hpf] at hactmem
              rcases f with _ | fa
              · simp only [queuedProg, List.mem_singleton] at hactmem
                rw [hactmem] at hr
                simp [actionEvents] at hr
              · simp only [queuedProg, List.mem_cons, List.mem_singleton,
                  List.not_mem_nil, or_false] at hactmem
                rcases hactmem with ha | ha
                · rw [ha] at hr
                  simp [actionEvents] at hr
                · rw [ha] at hr
                  simp only [actionEvents, List.map_cons, List.map_nil,
                    List.mem_singleton] at hr
                  rw [hr]
                  exact ⟨fa, by rw [hf2], rfl⟩

lemma map_fst_eq_three {α : Type _} (l : List (ℕ × α))
    (h : l.map Prod.fst = [0, 1, 2]) :
    ∃ a b c, l = [(0, a), (1, b), (2, c)] := by
  rcases l with _ | ⟨⟨i0, a⟩, l⟩
  · simp at h
  rcases l with _ | ⟨⟨i1, b⟩, l⟩
  · simp at h
  rcases l with _ | ⟨⟨i2, c⟩, l⟩
  · simp at h
  rcases l with _ | ⟨q, l⟩
  · refine ⟨a, b, c, ?_⟩
    simp only [List.map_cons, List.map_nil, List.cons.injEq, and_true] at h
    rw [h.1, h.2.1, h.2.2]
  · simp at h

lemma clamp_mem (v lo hi : ℚ) (h : lo ≤ hi) : lo ≤ clamp v lo hi ∧ clamp v lo hi ≤ hi := by
  unfold clamp
  exact ⟨le_max_right _ _, max_le (le_trans (min_le_right _ _) le_rfl) h⟩

/-- Claim C2: for every desktop size, 3D flag and object bounding box
(including centers outside the desktop rectangle), the angle_x and
angle_y produced by parameter extraction both lie in [-90, 90]. -/
theorem extract_angles_clamped (audio3d : Bool) (W H : ℚ) (obj : Option UIObject)
    (sound : Sound) (vol : ℚ) (p : SoundParams)
    (h : extract_sound_params audio3d W H obj sound vol = Except.ok p) :
    -90 ≤ p.angle_x ∧ p.angle_x ≤ 90 ∧ -90 ≤ p.angle_y ∧ p.angle_y ≤ 90 := by
  unfold extract_sound_params at h
  split at h
  · exact absurd h (by simp)
  · split at h
    · exact absurd h (by simp)
    · simp only [Except.ok.injEq] at h
      rw [← h]
      have h90 : (-90 : ℚ) ≤ 90 := by norm_num
      exact ⟨(clamp_mem _ _ _ h90).1, (clamp_mem _ _ _ h90).2,
        (clamp_mem _ _ _ h90).1, (clamp_mem _ _ _ h90).2⟩

/-- Witness for C2 at a concrete center far outside the desktop. -/
theorem extract_angles_clamped_witness :
    extract_sound_params true 1920 1080 (some ⟨0, some (-10000, 9000, 0, 0)⟩)
        ⟨[], 44100⟩ 1
      = Except.ok ⟨[], -90, -90, 1⟩
    ∧ (-90 : ℚ) ≤ (-90 : ℚ) ∧ (-90 : ℚ) ≤ 90 ∧ (-90 : ℚ) ≤ (-90 : ℚ)
      ∧ (-90 : ℚ) ≤ 90 := by
  have hok : extract_sound_params true 1920 1080 (some ⟨0, some (-10000, 9000, 0, 0)⟩)
      ⟨[], 44100⟩ 1 = Except.ok ⟨[], -90, -90, 1⟩ := by
    unfold extract_sound_params
    norm_num [clamp, sound_center, display_width, display_height_min,
      display_height_magnitude]
  have hb := extract_angles_clamped true 1920 1080 (some ⟨0, some (-10000, 9000, 0, 0)⟩)
    ⟨[], 44100⟩ 1 ⟨[], -90, -90, 1⟩ hok
  exact ⟨hok, hb.1, hb.2.1, hb.2.2.1, hb.2.2.2⟩

/-- Claim C5: with use_synth_volume enabled the computed volume is the
device volume over 100 clamped to [0, 1], plus a fixed 0.25 boost when 3D
mode is on, with no upper re-clamping: device volume 50 with 3D gives
exactly 0.75, and near 100 the result exceeds 1. -/
theorem compute_volume_device_volume (dv : ℚ) (a3d : Bool) :
    compute_volume true 100 a3d (some dv)
      = clamp (dv / 100) 0 1 + (if a3d then 1 / 4 else 0)
    ∧ compute_volume true 100 true (some 50) = 3 / 4
    ∧ 1 < compute_volume true 100 true (some 99) := by
  refine ⟨?_, ?_, ?_⟩
  · cases a3d <;> simp [compute_volume]
  · simp only [compute_volume, clamp, Option.getD]
    norm_num
  · simp only [compute_volume, clamp, Option.getD]
    norm_num

/-- Counterexample to Claim C7: with the fallback desktop size
(1920, 1080) an object with no location yields angle_y = -15, not the
claimed 5.0 (the claimed formula 50 * 0.5 + (-40) itself evaluates
to -15). -/
theorem extract_no_location_counterexample :
    extract_sound_params true 1920 1080 none ⟨[], 44100⟩ 1
      = Except.ok ⟨[], 0, -15, 1⟩
    ∧ ((-15 : ℚ) = 5 → False) := by
  constructor
  · unfold extract_sound_params
    norm_num [clamp, sound_center, display_width, display_height_min,
      display_height_magnitude]
  · intro h
    norm_num at h

/-- Claim C7 (amended): an object with no location (or a None object) is
treated as centered at (W/2, H/2); with the fallback desktop size
(1920, 1080) the extracted angles are angle_x = 0 and
angle_y = 50 * 0.5 + (-40) = -15. -/
theorem extract_no_location_centered (a3d : Bool) (i : ℕ) (sound : Sound) (vol : ℚ) :
    extract_sound_params a3d 1920 1080 none sound vol
      = Except.ok ⟨sound.data, 0, -15, vol⟩
    ∧ extract_sound_params a3d 1920 1080 (some ⟨i, none⟩) sound vol
      = Except.ok ⟨sound.data, 0, -15, vol⟩ := by
  constructor <;> cases a3d <;>
    · unfold extract_sound_params
      norm_num [clamp, sound_center, display_width, display_height_min,
        display_height_magnitude]

/-- Claim C4 (code bug): the wrappers free the native output buffer
exactly once on the success and exception paths with a positive output
length, but on a successful call returning a non-null buffer with output
length zero they return the empty bytes object without any
free_output_sound call, leaking the native allocation. -/
theorem buffer_release_paths :
    (process_sound true ⟨true, false, [], false⟩).free_calls = 0
    ∧ (process_sound true ⟨true, false, [], false⟩).result = some []
    ∧ (apply_reverb true ⟨true, false, [], false⟩).free_calls = 0
    ∧ (process_sound true ⟨true, false, [7], false⟩).free_calls = 1
    ∧ (process_sound true ⟨true, false, [7], true⟩).free_calls = 1
    ∧ (apply_reverb true ⟨true, false, [7], true⟩).free_calls = 1 := by
  decide

/-- Claim C9: a further initialize call on an already-initialized facade
returns True without invoking the native initialization routine and
leaves the state (initialized flag, sample rate, frame size) unchanged. -/
theorem initialize_idempotent (s : SteamState) (native_ok : Bool) (sr fs : ℕ)
    (h : s.initialized = true) :
    initializeImpl s native_ok sr fs = ⟨true, s, false⟩ := by
  simp [initializeImpl, h]

/-- Witness for C9 on an initialized facade. -/
theorem initialize_idempotent_witness :
    (⟨true, 44100, 1024⟩ : SteamState).initialized = true
    ∧ initializeImpl ⟨true, 44100, 1024⟩ true 48000 512
      = ⟨true, ⟨true, 44100, 1024⟩, false⟩ :=
  ⟨rfl, initialize_idempotent ⟨true, 44100, 1024⟩ true 48000 512 rfl⟩

/-- Claim C1: a playback worker dispatched by play or by play_file under
a captured generation value g makes no feed call on the output sink when
the engine generation read inside the wave-player lock at the write step
differs from g; the generation is re-checked inside the lock, so only a
request whose g is still current can perform the write. -/
theorem interrupt_generation_gate (processed : Option Audio)
    (use_reverb conf_ok conf_use_reverb : Bool) (reverb_result : Option Audio)
    (g gen1 gen2 : ℕ) (h : gen2 ≠ g) :
    noFeed (play_sound_async_events processed use_reverb conf_ok conf_use_reverb
      reverb_result g gen1 gen2) = true
    ∧ noFeed (play_file_async_events processed g gen1 gen2) = true := by
  have hg : g ≠ gen2 := fun he => h he.symm
  have hb : (g == gen2) = false := by
    simp [hg]
  constructor
  · unfold play_sound_async_events
    rw [if_pos hg]
    split
    · rfl
    · split
      · rfl
      · rfl
  · unfold play_file_async_events
    rw [hb]
    split
    · rfl
    · rfl

/-- Witness for C1 with a superseded generation. -/
theorem interrupt_generation_gate_witness :
    (2 : ℕ) ≠ 1
    ∧ noFeed (play_sound_async_events (some [5]) true true true none 1 1 2) = true
    ∧ noFeed (play_file_async_events (some [5]) 1 1 2) = true := by
  refine ⟨by decide, ?_, ?_⟩
  · exact (interrupt_generation_gate (some [5]) true true true none 1 1 2
      (by decide)).1
  · exact (interrupt_generation_gate (some [5]) true true true none 1 1 2
      (by decide)).2

/-- Claim C10: a play call suppressed by the None-sound guard or by the
debounce guard returns with the engine state unchanged (in particular the
generation counter) and spawns no worker, so it performs no stop and no
feed on the output sink and cannot supersede an in-flight sound. -/
theorem suppressed_play_no_effect (env : PlaybackEnv) (s : EngineState)
    (obj : Option UIObject) (sound : Option Sound) (t : ℚ)
    (h : sound = none
      ∨ (t - s.last_played_time < 1 / 10 ∧ objId obj = s.last_played_object)) :
    play env s obj sound t = Except.ok (s, none) := by
  rcases h with h | h
  · rw [h]
    rfl
  · cases sound with
    | none => rfl
    | some snd =>
      simp only [play]
      rw [if_pos h]

/-- Witness for C10 on a debounced call. -/
theorem suppressed_play_no_effect_witness :
    ((some (⟨[], 44100⟩ : Sound) = none)
      ∨ ((21 / 20 : ℚ) - (⟨some 7, 1, 3⟩ : EngineState).last_played_time < 1 / 10
        ∧ objId (some ⟨7, none⟩) = (⟨some 7, 1, 3⟩ : EngineState).last_played_object))
    ∧ play ⟨true, 1920, 1080, 1⟩ ⟨some 7, 1, 3⟩ (some ⟨7, none⟩)
        (some ⟨[], 44100⟩) (21 / 20)
      = Except.ok (⟨some 7, 1, 3⟩, none) := by
  have hc : ((21 / 20 : ℚ) - (⟨some 7, 1, 3⟩ : EngineState).last_played_time < 1 / 10
      ∧ objId (some ⟨7, none⟩) = (⟨some 7, 1, 3⟩ : EngineState).last_played_object) := by
    refine ⟨?_, rfl⟩
    norm_num
  exact ⟨Or.inr hc,
    suppressed_play_no_effect ⟨true, 1920, 1080, 1⟩ ⟨some 7, 1, 3⟩ (some ⟨7, none⟩)
      (some ⟨[], 44100⟩) (21 / 20) (Or.inr hc)⟩

/-- Claim C6: a play call that dispatched a worker records the object
identity and the call time, so a second play call on the same object less
than 100 ms later is a no-op: it returns with the state unchanged and
dispatches nothing, giving exactly one dispatch across the two calls. -/
theorem play_debounce_once (env : PlaybackEnv) (s s1 : EngineState)
    (obj : Option UIObject) (snd snd2 : Sound) (t1 t2 : ℚ) (w : SoundParams × ℕ)
    (h1 : play env s obj (some snd) t1 = Except.ok (s1, some w))
    (h2 : t2 - t1 < 1 / 10) :
    play env s1 obj (some snd2) t2 = Except.ok (s1, none) := by
  simp only [play] at h1
  split at h1
  · exact absurd h1 (by simp)
  · rcases hx : extract_sound_params env.audio3d env.desktop_max_x env.desktop_max_y
        obj snd env.cached_volume with e | params
    · rw [hx] at h1
      exact absurd h1 (by simp)
    · rw [hx] at h1
      simp only [Except.ok.injEq, Prod.mk.injEq] at h1
      obtain ⟨hs, hw⟩ := h1
      subst hs
      simp only [play]
      simp [h2]
      intro hc
      exact absurd hc (not_le.mpr (by linarith))

/-- Witness for C6: a dispatching first call followed 50 ms later by a
debounced second call on the same object. -/
theorem play_debounce_once_witness :
    play ⟨true, 1920, 1080, 1⟩ ⟨none, 0, 0⟩ (some ⟨7, none⟩) (some ⟨[], 44100⟩) 1
      = Except.ok (⟨some 7, 1, 1⟩, some (⟨[], 0, -15, 1⟩, 1))
    ∧ (21 / 20 : ℚ) - 1 < 1 / 10
    ∧ play ⟨true, 1920, 1080, 1⟩ ⟨some 7, 1, 1⟩ (some ⟨7, none⟩) (some ⟨[], 44100⟩)
        (21 / 20)
      = Except.ok (⟨some 7, 1, 1⟩, none) := by
  have hx : extract_sound_params true 1920 1080 (some ⟨7, none⟩) ⟨[], 44100⟩ 1
      = Except.ok ⟨[], 0, -15, 1⟩ := by
    unfold extract_sound_params
    norm_num [clamp, sound_center, display_width, display_height_min,
      display_height_magnitude]
  have h1 : play ⟨true, 1920, 1080, 1⟩ ⟨none, 0, 0⟩ (some ⟨7, none⟩)
      (some ⟨[], 44100⟩) 1 = Except.ok (⟨some 7, 1, 1⟩, some (⟨[], 0, -15, 1⟩, 1)) := by
    simp only [play]
    rw [if_neg (by norm_num [objId])]
    rw [hx]
    rfl
  have h2 : (21 / 20 : ℚ) - 1 < 1 / 10 := by norm_num
  exact ⟨h1, h2,
    play_debounce_once ⟨true, 1920, 1080, 1⟩ ⟨none, 0, 0⟩ ⟨some 7, 1, 1⟩
      (some ⟨7, none⟩) ⟨[], 44100⟩ ⟨[], 44100⟩ 1 (21 / 20) (⟨[], 0, -15, 1⟩, 1) h1 h2⟩

lemma extract_sound_params_isOk (audio3d : Bool) (W H : ℚ) (obj : Option UIObject)
    (sound : Sound) (vol : ℚ) (hW : W ≠ 0) (hH : H ≠ 0) :
    exceptOk (extract_sound_params audio3d W H obj sound vol) = true := by
  unfold extract_sound_params
  rw [if_neg hW, if_neg hH]
  rfl

/-- Claim C8 (amended): play_file never propagates an exception for any
input, and play and play_queued never propagate an exception whenever the
cached desktop dimensions are nonzero (true of every real desktop size
and of the (1920, 1080) fallback); a decode or processing failure
produces no sound: a failed decode makes play_file return without
dispatching, and a worker whose processing failed performs no sink call
at all. -/
theorem entry_points_no_raise (env : PlaybackEnv) (s : EngineState)
    (obj : Option UIObject) (sound : Option Sound) (t : ℚ) (decoded : Option Sound)
    (use_reverb conf_ok conf_use_reverb : Bool) (reverb_result : Option Audio)
    (g gen1 gen2 : ℕ)
    (hW : env.desktop_max_x ≠ 0) (hH : env.desktop_max_y ≠ 0) :
    exceptOk (play env s obj sound t) = true
    ∧ exceptOk (play_queued env s obj sound) = true
    ∧ exceptOk (play_file s decoded) = true
    ∧ play_sound_async_events none use_reverb conf_ok conf_use_reverb reverb_result
        g gen1 gen2 = []
    ∧ play_sound_queued_events none use_reverb conf_ok conf_use_reverb
        reverb_result = []
    ∧ play_file_async_events none g gen1 gen2 = [] := by
  refine ⟨?_, ?_, ?_, rfl, rfl, rfl⟩
  · cases sound with
    | none => rfl
    | some snd =>
      simp only [play]
      split
      · rfl
      · rcases hx : extract_sound_params env.audio3d env.desktop_max_x
            env.desktop_max_y obj snd env.cached_volume with e | params
        · have hok := extract_sound_params_isOk env.audio3d env.desktop_max_x
            env.desktop_max_y obj snd env.cached_volume hW hH
          rw [hx] at hok
          simp [exceptOk] at hok
        · rfl
  · cases sound with
    | none => rfl
    | some snd =>
      simp only [play_queued]
      rcases hx : extract_sound_params env.audio3d env.desktop_max_x
          env.desktop_max_y obj snd env.cached_volume with e | params
      · have hok := extract_sound_params_isOk env.audio3d env.desktop_max_x
          env.desktop_max_y obj snd env.cached_volume hW hH
        rw [hx] at hok
        simp [exceptOk] at hok
      · rfl
  · cases decoded with
    | none => rfl
    | some snd => rfl

/-- Witness for C8 at the fallback desktop size. -/
theorem entry_points_no_raise_witness :
    (1920 : ℚ) ≠ 0 ∧ (1080 : ℚ) ≠ 0
    ∧ exceptOk (play ⟨true, 1920, 1080, 1⟩ ⟨none, 0, 0⟩ none (some ⟨[], 44100⟩) 0)
      = true
    ∧ exceptOk (play_queued ⟨true, 1920, 1080, 1⟩ ⟨none, 0, 0⟩ none
        (some ⟨[], 44100⟩)) = true
    ∧ exceptOk (play_file ⟨none, 0, 0⟩ none) = true
    ∧ play_sound_async_events none true true true none 1 1 1 = []
    ∧ play_sound_queued_events none true true true none = []
    ∧ play_file_async_events none 1 1 1 = [] := by
  have hW : (1920 : ℚ) ≠ 0 := by norm_num
  have hH : (1080 : ℚ) ≠ 0 := by norm_num
  have h := entry_points_no_raise ⟨true, 1920, 1080, 1⟩ ⟨none, 0, 0⟩ none
    (some ⟨[], 44100⟩) 0 none true true true none 1 1 1 hW hH
  exact ⟨hW, hH, h.1, h.2.1, h.2.2.1, h.2.2.2.1, h.2.2.2.2.1, h.2.2.2.2.2⟩

/-- Counterexample to Claim C8: the divisions by the cached desktop
dimensions in extract_sound_params run on the calling thread outside any
try/except, so with a cached desktop width of zero a non-debounced play
call propagates ZeroDivisionError to the caller instead of returning. -/
theorem play_raises_on_zero_desktop :
    play ⟨true, 0, 1080, 1⟩ ⟨none, 0, 0⟩ none (some ⟨[], 44100⟩) 1
      = Except.error PyErr.zeroDivision
    ∧ exceptOk (play ⟨true, 0, 1080, 1⟩ ⟨none, 0, 0⟩ none (some ⟨[], 44100⟩) 1)
      = false := by
  have hx : extract_sound_params true 0 1080 none ⟨[], 44100⟩ 1
      = Except.error PyErr.zeroDivision := by
    unfold extract_sound_params
    norm_num
  have h1 : play ⟨true, 0, 1080, 1⟩ ⟨none, 0, 0⟩ none (some ⟨[], 44100⟩) 1
      = Except.error PyErr.zeroDivision := by
    simp only [play]
    rw [if_neg (by norm_num [objId])]
    rw [hx]
  exact ⟨h1, by rw [h1]; rfl⟩

/-- Counterexample to Claim C3: three queued workers with distinct
payloads dispatched in order A, B, C admit a complete interleaving (the
OS schedules one detached thread per call, with no ordering primitive)
whose sink trace feeds B before A, so the claimed feed(A), feed(B),
feed(C) order is not guaranteed. -/
theorem play_queued_order_counterexample :
    (runSched [queuedProg (some [0]), queuedProg (some [1]), queuedProg (some [2])]
        [0, 1, 1, 0, 2, 2]).1 = [2, 2, 2]
    ∧ (runSched [queuedProg (some [0]), queuedProg (some [1]), queuedProg (some [2])]
        [0, 1, 1, 0, 2, 2]).2
      = [SinkEvent.feed [1], SinkEvent.feed [0], SinkEvent.feed [2]]
    ∧ [SinkEvent.feed [1], SinkEvent.feed [0], SinkEvent.feed [2]]
      ≠ [SinkEvent.feed [0], SinkEvent.feed [1], SinkEvent.feed [2]] := by
  decide

/-- Claim C3 (amended): a play_queued call performs no debounce check and
no generation check (its outcome ignores the engine playback state, which
it leaves unchanged), and its worker never calls stop() on the sink; it
appends the processed audio via one feed() under the wave-player lock when
processing succeeds.  Three play_queued calls with payloads A, B, C whose
processing succeeds yield, under every complete interleaving, exactly the
three feeds of A, B and C with no stop() call, and yield them in dispatch
order whenever the workers reach the sink lock in dispatch order: for
every schedule in which the tagged trace shows the workers performing
their locked feed in dispatch order 0, 1, 2, the sink trace is exactly
feed(A), feed(B), feed(C). -/
theorem play_queued_policy (env : PlaybackEnv) (s s2 : EngineState)
    (obj : Option UIObject) (sound : Option Sound)
    (finals : List (Option Audio)) (sched sched2 : List ℕ) (fA fB fC : Audio) :
    play_queued env s obj sound
      = Except.map (fun d => (s, d)) (Except.map Prod.snd (play_queued env s2 obj sound))
    ∧ SinkEvent.stop ∉ (runSched (finals.map queuedProg) sched).2
    ∧ ((runSched [queuedProg (some fA), queuedProg (some fB), queuedProg (some fC)]
          sched2).1 = [2, 2, 2] →
        ((runSched [queuedProg (some fA), queuedProg (some fB), queuedProg (some fC)]
            sched2).2 : Multiset SinkEvent)
          = ↑[SinkEvent.feed fA, SinkEvent.feed fB, SinkEvent.feed fC])
    ∧ (runSched [queuedProg (some fA), queuedProg (some fB), queuedProg (some fC)]
        [0, 0, 1, 1, 2, 2]).2
      = [SinkEvent.feed fA, SinkEvent.feed fB, SinkEvent.feed fC]
    ∧ (((runSchedT [queuedProg (some fA), queuedProg (some fB), queuedProg (some fC)]
          sched2).2).map Prod.fst = [0, 1, 2] →
        (runSched [queuedProg (some fA), queuedProg (some fB), queuedProg (some fC)]
          sched2).2
          = [SinkEvent.feed fA, SinkEvent.feed fB, SinkEvent.feed fC]) := by
  refine ⟨?_, ?_, ?_, ?_, ?_⟩
  · cases sound with
    | none => rfl
    | some snd =>
      simp only [play_queued]
      rcases hx : extract_sound_params env.audio3d env.desktop_max_x
          env.desktop_max_y obj snd env.cached_volume with e | params
      · rfl
      · rfl
  · exact no_stop_in_queued_run finals sched
      (List.replicate (finals.map queuedProg).length 0) [] (by simp)
  · intro hdone
    have hinv := foldl_stepW_invariant
      [queuedProg (some fA), queuedProg (some fB), queuedProg (some fC)] sched2
      (List.replicate 3 0) []
    have hF : runSched
        [queuedProg (some fA), queuedProg (some fB), queuedProg (some fC)] sched2
        = sched2.foldl
            (stepW [queuedProg (some fA), queuedProg (some fB), queuedProg (some fC)])
            (List.replicate 3 0, []) := rfl
    rw [← hF] at hinv
    rw [hdone] at hinv
    have hrem2 : remEvents
        [queuedProg (some fA), queuedProg (some fB), queuedProg (some fC)]
        [2, 2, 2] = [] := rfl
    have hrem0 : remEvents
        [queuedProg (some fA), queuedProg (some fB), queuedProg (some fC)]
        (List.replicate 3 0)
        = [SinkEvent.feed fA, SinkEvent.feed fB, SinkEvent.feed fC] := rfl
    rw [hrem2, hrem0] at hinv
    simpa using hinv
  · simp [runSched, stepW, queuedProg, actionEvents]
  · intro horder
    obtain ⟨e0, e1, e2, hTeq⟩ := map_fst_eq_three _ horder
    have hmem2 : ∀ q ∈ (runSchedT
        [queuedProg (some fA), queuedProg (some fB), queuedProg (some fC)] sched2).2,
        ∃ f, ([some fA, some fB, some fC] : List (Option Audio))[q.1]?
            = some (some f) ∧ q.2 = SinkEvent.feed f :=
      fun q hq => queued_tagged_feeds [some fA, some fB, some fC] sched2
        (List.replicate 3 0) [] (by intro q hq; exact absurd hq (List.not_mem_nil q))
        q hq
    have hm0 := hmem2 (0, e0) (by rw [hTeq]; simp)
    have hm1 := hmem2 (1, e1) (by rw [hTeq]; simp)
    have hm2 := hmem2 (2, e2) (by rw [hTeq]; simp)
    obtain ⟨f0, hf0, he0⟩ := hm0
    obtain ⟨f1, hf1, he1⟩ := hm1
    obtain ⟨f2, hf2, he2⟩ := hm2
    have hf0A : f0 = fA := by simpa using hf0.symm
    have hf1B : f1 = fB := by simpa using hf1.symm
    have hf2C : f2 = fC := by simpa using hf2.symm
    have hfinal : (runSched
        [queuedProg (some fA), queuedProg (some fB), queuedProg (some fC)] sched2).2
        = ((runSchedT
            [queuedProg (some fA), queuedProg (some fB), queuedProg (some fC)]
            sched2).2).map Prod.snd :=
      (runSched_eq_tagged
        [queuedProg (some fA), queuedProg (some fB), queuedProg (some fC)] sched2
        (List.replicate 3 0) []).2
    rw [hfinal, hTeq]
    simp only [List.map_cons, List.map_nil]
    simp only at he0 he1 he2
    rw [he0, he1, he2, hf0A, hf1B, hf2C]

/-- Witness for C3 (amended) on concrete payloads and an in-order
complete schedule, also exercising the in-order-lock-arrival clause. -/
theorem play_queued_policy_witness :
    (runSched [queuedProg (some [0]), queuedProg (some [1]), queuedProg (some [2])]
        [0, 0, 1, 1, 2, 2]).1 = [2, 2, 2]
    ∧ ((runSched [queuedProg (some [0]), queuedProg (some [1]), queuedProg (some [2])]
        [0, 0, 1, 1, 2, 2]).2 : Multiset SinkEvent)
      = ↑[SinkEvent.feed [0], SinkEvent.feed [1], SinkEvent.feed [2]]
    ∧ SinkEvent.stop ∉ (runSched ([some [0], some [1], some [2]].map queuedProg)
        [0, 0, 1, 1, 2, 2]).2
    ∧ ((runSchedT [queuedProg (some [0]), queuedProg (some [1]), queuedProg (some [2])]
        [0, 0, 1, 1, 2, 2]).2).map Prod.fst = [0, 1, 2]
    ∧ (runSched [queuedProg (some [0]), queuedProg (some [1]), queuedProg (some [2])]
        [0, 0, 1, 1, 2, 2]).2
      = [SinkEvent.feed [0], SinkEvent.feed [1], SinkEvent.feed [2]] := by
  refine ⟨by decide, ?_, ?_, by decide, ?_⟩
  · exact (play_queued_policy ⟨true, 1920, 1080, 1⟩ ⟨none, 0, 0⟩ ⟨none, 0, 0⟩ none
      none [] [] [0, 0, 1, 1, 2, 2] [0] [1] [2]).2.2.1 (by decide)
  · exact (play_queued_policy ⟨true, 1920, 1080, 1⟩ ⟨none, 0, 0⟩ ⟨none, 0, 0⟩ none
      none [some [0], some [1], some [2]] [0, 0, 1, 1, 2, 2] [] [0] [1] [2]).2.1
  · exact (play_queued_policy ⟨true, 1920, 1080, 1⟩ ⟨none, 0, 0⟩ ⟨none, 0, 0⟩ none
      none [] [] [0, 0, 1, 1, 2, 2] [0] [1] [2]).2.2.2.2 (by decide)

end AudioThemes
